import Mathlib

/-!
Verification development for the interactive-course-agents repository.

Part 1 embeds the alignment/anchoring engine of
`src/services/data_processing_service.py` (text normalization, visual
anchoring against word timestamps, paragraph merge).

Part 2 embeds the task lifecycle / admission-control engine of
`src/services/task_manager_service.py` over an explicit store state, and
the background orchestrator of `src/services/background_processor.py`.

Python strings handled by the text-normalization code are modelled as
`List Char` so that every string operation is structural recursion; times
(seconds) are modelled as `ℚ`; the Redis store is modelled as explicit
association lists, and each `async` service method as a state-passing
function returning `Except` for the exceptions it can raise.
-/

namespace CourseAgents

/-- Python `str` modelled as a list of characters. -/
abbrev PyStr := List Char

/-- Conversion helper from Lean string literals to the `PyStr` model. -/
def pystr (s : String) : PyStr := s.data

/-- Membership in Python's `string.punctuation`, i.e. the ASCII code
ranges 33 to 47, 58 to 64, 91 to 96 and 123 to 126. -/
def isPunct (c : Char) : Bool :=
  (33 ≤ c.toNat && c.toNat ≤ 47) ||
  (58 ≤ c.toNat && c.toNat ≤ 64) ||
  (91 ≤ c.toNat && c.toNat ≤ 96) ||
  (123 ≤ c.toNat && c.toNat ≤ 126)

/-- ASCII lowercasing of one character; `str.lower` restricted to ASCII,
which covers the texts the engine normalizes. -/
def lowerChar (c : Char) : Char :=
  if 65 ≤ c.toNat && c.toNat ≤ 90 then Char.ofNat (c.toNat + 32) else c

/-- Model of `DataProcessingService._clean_text`: remove every
punctuation character (`str.translate` with a deletion table built from
`string.punctuation`), then lowercase. -/
def cleanText (s : PyStr) : PyStr :=
  (s.filter (fun c => !(isPunct c))).map lowerChar

/-- Python `s.split(" ")`: split on each single space, keeping empty
fragments (the empty string splits to one empty fragment, and two
adjacent spaces produce an empty fragment between them). -/
def splitOnSpace : PyStr → List PyStr
  | [] => [[]]
  | c :: rest =>
    if c = ' ' then [] :: splitOnSpace rest
    else
      match splitOnSpace rest with
      | [] => [[c]]
      | w :: ws => (c :: w) :: ws

/-- ASCII whitespace, as stripped by Python `str.strip`. -/
def isSpaceChar (c : Char) : Bool :=
  c = ' ' || c = '\t' || c = '\n' || c = '\r' || c.toNat = 11 || c.toNat = 12

/-- Python `str.strip`: drop leading and trailing whitespace. -/
def pyStrip (s : PyStr) : PyStr :=
  ((s.dropWhile isSpaceChar).reverse.dropWhile isSpaceChar).reverse

/-- Model of `WordTranscription`
(`src/models/transcription_output_model.py`): a transcribed word with its
timing. The source field `end` is named `stop` here because `end` is a
Lean keyword. Only `text` and `start` are read by the anchoring engine. -/
structure WordTranscription where
  id : PyStr
  text : PyStr
  start : ℚ
  stop : ℚ
  segment_id : PyStr
deriving DecidableEq, Repr

/-- Model of `LLMGeneratedVisualItem`: the class is imported by the
service from `src/models/llm_response_models.py`, a module absent from
the source tree; its fields are reconstructed from their uses in
`data_processing_service.py` and from the spec's GeneratedParagraph
visual (`type`, type-specific `content`, `start_sentence`, optional
`assist_image_id`). The type-specific content is carried opaquely as a
string since the merge logic never inspects it. -/
structure LLMGeneratedVisualItem where
  type : PyStr
  content : PyStr
  start_sentence : PyStr
  assist_image_id : Option PyStr
deriving DecidableEq, Repr

/-- Model of `VisualContent` (`src/models/visual_content_models.py`): a
visual with its resolved `start_time`; the UUID value of
`assist_image_id` is modelled as the string it was parsed from. -/
structure VisualContent where
  type : PyStr
  content : PyStr
  start_time : ℚ
  assist_image_id : Option PyStr
deriving DecidableEq, Repr

/-- Model of `SearchAgentVisualContent`: imported by the service from
`src/models/visual_content_models.py` but not declared there; modelled
from its use as a `VisualContent` whose `assist_image_id` is required. -/
structure SearchAgentVisualContent where
  type : PyStr
  content : PyStr
  start_time : ℚ
  assist_image_id : PyStr
deriving DecidableEq, Repr

/-- Union of the two classes `_map_visual_to_word_timestamps` can
return. -/
inductive MappedVisual where
  | plain (v : VisualContent)
  | searchValidated (v : SearchAgentVisualContent)
deriving DecidableEq, Repr

/-- Resolved `start_time` of either variant. -/
def MappedVisual.startTime : MappedVisual → ℚ
  | .plain v => v.start_time
  | .searchValidated v => v.start_time

/-- Model of `DataProcessingService._prepare_visual_start_words`: clean
the start sentence, split on spaces, strip each fragment. -/
def prepareVisualStartWords (start_sentence : PyStr) : List PyStr :=
  (splitOnSpace (cleanText start_sentence)).map pyStrip

/-- Model of `DataProcessingService._words_match_at_position`: truncate
the cleaned visual words to their first two, take the window
`paragraph_words[index : index + len]`, normalize each window word, and
compare the two lists. -/
def wordsMatchAtPosition (cleaned_visual_words : List PyStr)
    (paragraph_words : List WordTranscription) (index : ℕ) : Bool :=
  let key := cleaned_visual_words.take 2
  let seq_words :=
    ((paragraph_words.drop index).take key.length).map
      (fun w => pyStrip (cleanText w.text))
  key == seq_words

/-- Loop bound of `_map_visual_to_word_timestamps`: the Python range
`range(len(paragraph_words) - len(cleaned_visual_words) + 1)` evaluated
over the integers (an empty range when the difference is negative). -/
def anchorLoopBound (wordCount keyCount : ℕ) : ℕ :=
  ((wordCount : ℤ) - (keyCount : ℤ) + 1).toNat

/-- Sequential scan with early return: `scanFrom f start count` tries
`f start`, `f (start+1)`, …, `f (start+count-1)` in order and returns the
first `some`; this is the evaluation order of a Python
`for index in range(n)` loop whose body may return. -/
def scanFrom (f : ℕ → Option α) (start : ℕ) : ℕ → Option α
  | 0 => none
  | count + 1 =>
    match f start with
    | some r => some r
    | none => scanFrom f (start + 1) count

/-- Object constructed by `_map_visual_to_word_timestamps` once a match
is found: the Python truthiness test on `assist_image_id` treats an
empty string as absent, and the `is_search_agent and assist_image_id`
branch picks the search-agent class. The `UUID(...)` parse of a
well-formed id string is modelled as the string itself. -/
def buildMappedVisual (visual : LLMGeneratedVisualItem) (start : ℚ)
    (is_search_agent : Bool) : MappedVisual :=
  let assist_image_id : Option PyStr :=
    match visual.assist_image_id with
    | some s => if s.isEmpty then none else some s
    | none => none
  match is_search_agent, assist_image_id with
  | true, some aid =>
    .searchValidated ⟨visual.type, visual.content, start, aid⟩
  | _, _ =>
    .plain ⟨visual.type, visual.content, start, assist_image_id⟩

/-- Body of the anchoring loop at one index: return the built visual at
a matching index, `none` otherwise. The word lookup is by option to keep
the function total; every index the loop visits is in range. -/
def anchorLoopBody (visual : LLMGeneratedVisualItem)
    (paragraph_words : List WordTranscription) (is_search_agent : Bool)
    (index : ℕ) : Option MappedVisual :=
  if wordsMatchAtPosition (prepareVisualStartWords visual.start_sentence)
      paragraph_words index then
    (paragraph_words.get? index).map
      (fun w => buildMappedVisual visual w.start is_search_agent)
  else none

/-- Model of `DataProcessingService._map_visual_to_word_timestamps`:
walk the loop indices in order and return the visual anchored at the
first matching index, `none` when the loop finds no match. -/
def mapVisualToWordTimestamps (visual : LLMGeneratedVisualItem)
    (paragraph_words : List WordTranscription)
    (is_search_agent : Bool := false) : Option MappedVisual :=
  scanFrom (anchorLoopBody visual paragraph_words is_search_agent) 0
    (anchorLoopBound paragraph_words.length
      (prepareVisualStartWords visual.start_sentence).length)

/-- Modelled from the spec: the anchoring rule as section 4.2 of the
spec words it — take the first two tokens of the normalized
`start_sentence` as the key, slide a window of that length across the
word slice, and anchor at the first position where the normalized window
equals the key. Stated separately from `mapVisualToWordTimestamps` so
the two can be compared. -/
def specAnchorStartTime (start_sentence : PyStr)
    (paragraph_words : List WordTranscription) : Option ℚ :=
  let key := (prepareVisualStartWords start_sentence).take 2
  scanFrom
    (fun index =>
      if wordsMatchAtPosition key paragraph_words index then
        (paragraph_words.get? index).map (fun w => w.start)
      else none)
    0 (anchorLoopBound paragraph_words.length key.length)

/-- Model of `KeywordItem` (`KeywordItemModel` of the LLM response
models): a keyword with its category tag. -/
structure KeywordItem where
  word : PyStr
  type : PyStr
deriving DecidableEq, Repr

/-- Model of `LLMParagraphWithVisual`: a generated paragraph with index,
text, optional keyword list and at most one visual (fields reconstructed
from their uses in the service and the legacy
`GeneratedParagraphWithVisualModel` of `src/models/llm_output_models.py`,
since `src/models/llm_response_models.py` is absent from the tree). -/
structure LLMParagraphWithVisual where
  paragraph_index : ℤ
  paragraph_text : PyStr
  keywords : Option (List KeywordItem)
  visuals : Option LLMGeneratedVisualItem
deriving DecidableEq, Repr

/-- Model of `LLMParagraphList`: the generated paragraph sequence. -/
structure LLMParagraphList where
  paragraphs : List LLMParagraphWithVisual
deriving DecidableEq, Repr

/-- Model of `ScoredMatch` (`src/models/transcription_output_model.py`). -/
structure ScoredMatch where
  id : PyStr
  text : PyStr
  start : ℚ
  stop : ℚ
  score : ℚ
deriving DecidableEq, Repr

/-- Model of `AlignedParagraph`
(`src/models/transcription_output_model.py`): a paragraph aligned with
media timing; `word_details` carries the word slice (the source also
exposes it under the alias `paragraph_words`). -/
structure AlignedParagraph where
  paragraph : PyStr
  paragraph_index : ℤ
  best_start_match : ScoredMatch
  best_end_match : ScoredMatch
  word_details : List WordTranscription
  start : ℚ
  stop : ℚ
deriving DecidableEq, Repr

/-- Alias property `AlignedParagraph.paragraph_words` of the source. -/
def AlignedParagraph.paragraph_words (a : AlignedParagraph) :
    List WordTranscription := a.word_details

/-- Model of `MediaAlignmentResult`
(`src/models/transcription_output_model.py`). -/
structure MediaAlignmentResult where
  aligned_paragraphs : List AlignedParagraph
deriving DecidableEq, Repr

/-- Alias property `MediaAlignmentResult.result` of the source. -/
def MediaAlignmentResult.result (m : MediaAlignmentResult) :
    List AlignedParagraph := m.aligned_paragraphs

/-- Model of `WordTimestamp` (`src/models/base_models.py`): besides the
word and its timing it declares a required `word_type` field constrained
to the literal "text". The source field `end` is named `stop` here. -/
structure WordTimestamp where
  word : PyStr
  start : ℚ
  stop : ℚ
  word_type : PyStr
deriving DecidableEq, Repr

/-- Pydantic construction of a `WordTimestamp`: `word_type` is a
required field whose only admissible value is the literal "text", so
validation fails when the caller omits it or passes anything else. -/
def buildWordTimestamp (word : PyStr) (start stop : ℚ)
    (word_type : Option PyStr) : Except PyStr WordTimestamp :=
  match word_type with
  | none => .error (pystr ("ValidationError: word_type field required"))
  | some t =>
    if t = pystr ("text") then .ok ⟨word, start, stop, t⟩
    else .error (pystr ("ValidationError: word_type must be text"))

/-- Model of `ProcessedParagraph` (`src/models/final_output_models.py`):
the fully merged output unit; `visual_content` holds whichever visual
class the anchoring produced. -/
structure ProcessedParagraph where
  paragraph_id : ℤ
  text_content : PyStr
  start_time : ℚ
  end_time : ℚ
  keywords : Option (List KeywordItem)
  word_timestamps : List WordTimestamp
  visual_content : Option MappedVisual
deriving DecidableEq, Repr

/-- Model of `DataProcessingService._find_aligned_paragraph`: first
aligned paragraph with the given index, if any. -/
def findAlignedParagraph (paragraph_index : ℤ)
    (aligned_results : List AlignedParagraph) : Option AlignedParagraph :=
  aligned_results.find? (fun a => a.paragraph_index == paragraph_index)

/-- Model of `DataProcessingService._process_paragraph_visuals`: anchor
the paragraph's visual against the aligned words when a visual exists. -/
def processParagraphVisuals (paragraph : LLMParagraphWithVisual)
    (aligned_paragraph : AlignedParagraph)
    (is_search_agent : Bool := false) : Option MappedVisual :=
  match paragraph.visuals with
  | some v =>
    mapVisualToWordTimestamps v aligned_paragraph.paragraph_words
      is_search_agent
  | none => none

/-- List comprehension of `_create_processed_paragraph`: build one
`WordTimestamp(word=w.text, start=w.start, end=w.end)` per aligned word.
Every call site omits the required `word_type` field, so the first
constructed element raises. -/
def buildWordTimestampList :
    List WordTranscription → Except PyStr (List WordTimestamp)
  | [] => .ok []
  | w :: ws =>
    match buildWordTimestamp w.text w.start w.stop none with
    | .error e => .error e
    | .ok wt =>
      match buildWordTimestampList ws with
      | .error e => .error e
      | .ok rest => .ok (wt :: rest)

/-- Model of `DataProcessingService._create_processed_paragraph`: build
the word-timestamp list (which raises a `ValidationError` on the first
word, since `word_type` is not supplied), then assemble the
`ProcessedParagraph`. -/
def createProcessedParagraph (paragraph : LLMParagraphWithVisual)
    (aligned_paragraph : AlignedParagraph)
    (processed_visual_model : Option MappedVisual) :
    Except PyStr ProcessedParagraph :=
  match buildWordTimestampList aligned_paragraph.paragraph_words with
  | .error e => .error e
  | .ok word_timestamps =>
    .ok
      { paragraph_id := paragraph.paragraph_index + 1
        text_content := paragraph.paragraph_text
        start_time := aligned_paragraph.start
        end_time := aligned_paragraph.stop
        keywords := paragraph.keywords
        word_timestamps := word_timestamps
        visual_content := processed_visual_model }

/-- Per-paragraph body of the merge loop: the index lookup may find no
aligned paragraph, in which case the Python body dereferences `None`
and raises; that `AttributeError` is modelled as an error value. -/
def mergeParagraph (aligned_results : List AlignedParagraph)
    (is_search_agent : Bool) (paragraph : LLMParagraphWithVisual) :
    Except PyStr ProcessedParagraph :=
  match findAlignedParagraph paragraph.paragraph_index aligned_results with
  | none => .error (pystr ("NoneType has no attribute paragraph_words"))
  | some aligned_paragraph =>
    createProcessedParagraph paragraph aligned_paragraph
      (processParagraphVisuals paragraph aligned_paragraph is_search_agent)

/-- Sequential loop of the merge, accumulating processed paragraphs and
aborting at the first raised error. -/
def mergeLoop (aligned_results : List AlignedParagraph)
    (is_search_agent : Bool) :
    List LLMParagraphWithVisual → Except PyStr (List ProcessedParagraph)
  | [] => .ok []
  | p :: ps =>
    match mergeParagraph aligned_results is_search_agent p with
    | .error e => .error e
    | .ok pp =>
      match mergeLoop aligned_results is_search_agent ps with
      | .error e => .error e
      | .ok rest => .ok (pp :: rest)

/-- Model of
`DataProcessingService._merge_video_alignment_with_generated_paragraphs`:
raise when the two sequences differ in length, otherwise merge each
generated paragraph with the aligned paragraph of equal index. -/
def mergeVideoAlignmentWithGeneratedParagraphs
    (video_paragraph_alignment_result : MediaAlignmentResult)
    (generated_output : LLMParagraphList)
    (is_search_agent : Bool := false) :
    Except PyStr (List ProcessedParagraph) :=
  if video_paragraph_alignment_result.result.length ≠
      generated_output.paragraphs.length then
    .error (pystr
      ("Generated paragraphs and aligned paragraphs must be matched in length."))
  else
    mergeLoop video_paragraph_alignment_result.result is_search_agent
      generated_output.paragraphs

/-- Model of `TaskStatus` (`src/models/task_models.py`). -/
inductive TaskStatus where
  | pending
  | processing
  | completed
  | failed
  | cancelled
deriving DecidableEq, Repr

/-- Terminal statuses, as listed in `update_task_status`. -/
def TaskStatus.isTerminal : TaskStatus → Bool
  | .completed => true
  | .failed => true
  | .cancelled => true
  | _ => false

/-- Model of `TaskStage` (`src/models/task_models.py`). -/
inductive TaskStage where
  | queued
  | transcribing
  | processing_llm
  | aligning
  | completed
deriving DecidableEq, Repr

/-- Model of `AgentMode` (`src/models/task_models.py`). -/
inductive AgentMode where
  | generate
  | always_search
  | search_for_copyright
deriving DecidableEq, Repr

/-- Model of `VideoMetadata` as declared in
`src/models/task_models.py` (the class `TaskData` references): course,
chapter and video identifiers plus the processing mode, all required. -/
structure VideoMetadata where
  course_id : String
  chapter_id : String
  video_name : String
  agent_mode : AgentMode
deriving DecidableEq, Repr

/-- Model of `TaskData` (`src/models/task_models.py`). The `result`
payload (a JSON dict in the source) is carried opaquely as a string;
`video_metadata` is a required field with no default; the optional
`metadata` payload defaults to `None`, is never read or written by the
task-manager logic, and is omitted. -/
structure TaskData where
  task_id : String
  user_id : String
  status : TaskStatus
  stage : TaskStage
  progress : ℤ
  created_at : ℕ
  updated_at : ℕ
  result : Option String
  error_message : Option String
  video_metadata : VideoMetadata
deriving DecidableEq, Repr

/-- Pydantic construction of a `TaskData`: `video_metadata` is required
and has no default, so validation fails when the caller does not supply
it. (The `progress` range bounds and timestamp parsing are not
modelled; every call site passes in-range constants.) -/
def buildTaskData (task_id user_id : String) (status : TaskStatus)
    (stage : TaskStage) (progress : ℤ) (created_at updated_at : ℕ)
    (result error_message : Option String)
    (video_metadata : Option VideoMetadata) : Except String TaskData :=
  match video_metadata with
  | none => .error ("ValidationError: video_metadata field required")
  | some vm =>
    .ok ⟨task_id, user_id, status, stage, progress, created_at,
      updated_at, result, error_message, vm⟩

/-- Lookup in an association list, modelling a keyed Redis read. -/
def aget : List (String × α) → String → Option α
  | [], _ => none
  | (k, v) :: rest, key => if k = key then some v else aget rest key

/-- Update or insert in an association list, modelling a keyed Redis
write. -/
def aset : List (String × α) → String → α → List (String × α)
  | [], key, value => [(key, value)]
  | (k, v) :: rest, key, value =>
    if k = key then (key, value) :: rest else (k, v) :: aset rest key value

/-- Redis `SADD` on a set modelled as a duplicate-free list. -/
def sadd (s : List String) (x : String) : List String :=
  if x ∈ s then s else x :: s

/-- Redis `SREM`. -/
def srem (s : List String) (x : String) : List String :=
  s.filter (fun y => y != x)

/-- State of the Redis store as used by `TaskManagerService`: one
`task:{id}` record per task, the per-user `user:{id}:active_tasks` sets,
the per-user `user:{id}:completed_tasks` lists, and the
`global:active_tasks_count` counter. Key TTLs are not modelled. -/
structure Store where
  tasks : List (String × TaskData)
  active : List (String × List String)
  completed : List (String × List String)
  globalCount : ℤ
deriving DecidableEq, Repr

/-- Store with no keys, the state of a fresh Redis instance (the counter
read defaults to zero when the key is absent). -/
def emptyStore : Store := ⟨[], [], [], 0⟩

/-- Members of the per-user active set. -/
def userActiveIds (st : Store) (user_id : String) : List String :=
  (aget st.active user_id).getD []

/-- Entries of the per-user completed list. -/
def userCompletedIds (st : Store) (user_id : String) : List String :=
  (aget st.completed user_id).getD []

/-- Model of `TaskManagerService.get_task_status`: read the task record,
`none` when absent. The source re-validates the record into a
`TaskResponse` carrying the same fields, modelled as the record
itself. -/
def getTaskStatus (st : Store) (task_id : String) : Option TaskData :=
  aget st.tasks task_id

/-- Insertion into a list sorted by `created_at` descending. -/
def insertByCreatedDesc (t : TaskData) :
    List TaskData → List TaskData
  | [] => [t]
  | x :: xs =>
    if x.created_at ≤ t.created_at then t :: x :: xs
    else x :: insertByCreatedDesc t xs

/-- Sort by `created_at` descending (the `sorted(..., reverse=True)` of
the source). -/
def sortByCreatedDesc (l : List TaskData) : List TaskData :=
  l.foldr insertByCreatedDesc []

/-- Model of `TaskManagerService.get_user_active_tasks`: resolve every
id of the per-user active set that still has a record, newest first. -/
def getUserActiveTasks (st : Store) (user_id : String) : List TaskData :=
  sortByCreatedDesc
    ((userActiveIds st user_id).filterMap (fun tid => getTaskStatus st tid))

/-- The two `HTTPException` outcomes of the quota checks of
`create_task`: status 429 for the per-user limit, status 503 for the
global limit. -/
inductive AdmissionError where
  | perUser
  | globalLimit
deriving DecidableEq, Repr

/-- Every way `create_task` can raise: the two quota denials, and the
pydantic `ValidationError` of its `TaskData(...)` construction. -/
inductive CreateError where
  | perUser
  | globalLimit
  | validationError
deriving DecidableEq, Repr

/-- Read phase of `create_task`: the per-user count check followed by the
global counter check, exactly in source order; these are plain reads
issued before the write pipeline. -/
def createCheck (maxPerUser maxGlobal : ℕ) (st : Store)
    (user_id : String) : Option AdmissionError :=
  if maxPerUser ≤ (getUserActiveTasks st user_id).length then
    some .perUser
  else if (maxGlobal : ℤ) ≤ st.globalCount then
    some .globalLimit
  else none

/-- Write phase of `create_task`: the Redis pipeline that stores the
given record, adds the task to the per-user active set and increments
the global counter, executed as one atomic unit (the `expire` call only
sets a TTL and is not modelled). In this source revision the pipeline
is unreachable, because the `TaskData` construction that precedes it
always raises. -/
def createCommit (st : Store) (user_id task_id : String)
    (task_data : TaskData) : Store :=
  { tasks := aset st.tasks task_id task_data
    active := aset st.active user_id (sadd (userActiveIds st user_id) task_id)
    completed := st.completed
    globalCount := st.globalCount + 1 }

/-- Model of `TaskManagerService.create_task`: the two quota checks,
then the `TaskData(...)` construction — which supplies `task_id`,
`user_id`, status, stage, progress and the two timestamps but not the
required `video_metadata`, so it raises a `ValidationError` — and only
then the write pipeline. The fresh `f"{user_id}:{uuid4().hex}"` task id
is passed in as `task_id`, and `datetime.utcnow()` as `now`. -/
def createTask (maxPerUser maxGlobal : ℕ) (st : Store)
    (user_id task_id : String) (now : ℕ) :
    Except CreateError (Store × String) :=
  match createCheck maxPerUser maxGlobal st user_id with
  | some .perUser => .error .perUser
  | some .globalLimit => .error .globalLimit
  | none =>
    match buildTaskData task_id user_id .pending .queued 0 now now none
        none none with
    | .error _ => .error .validationError
    | .ok task_data => .ok (createCommit st user_id task_id task_data, task_id)

/-- Model of `TaskManagerService._cleanup_completed_task`: remove the
task from the active set, push it onto the completed list trimmed to the
last 100 entries, and decrement the global counter. -/
def cleanupCompletedTask (st : Store) (task_id user_id : String) :
    Store :=
  { st with
    active := aset st.active user_id (srem (userActiveIds st user_id) task_id)
    completed :=
      aset st.completed user_id
        ((task_id :: userCompletedIds st user_id).take 100)
    globalCount := st.globalCount - 1 }

/-- Field updates applied by `update_task_status` to the loaded record:
`status` and `updated_at` unconditionally, the optional arguments only
when supplied (the Python truthiness test `if stage:` coincides with a
presence test because every `TaskStage` value is a non-empty string). -/
def applyUpdate (task_data : TaskData) (status : TaskStatus)
    (stage : Option TaskStage) (progress : Option ℤ)
    (result : Option String) (error_message : Option String) (now : ℕ) :
    TaskData :=
  { task_data with
    status := status
    stage := match stage with | some sg => sg | none => task_data.stage
    progress := match progress with | some p => p | none => task_data.progress
    result := match result with | some r => some r | none => task_data.result
    error_message :=
      match error_message with
      | some e => some e
      | none => task_data.error_message
    updated_at := now }

/-- Model of `TaskManagerService.update_task_status`: load the record
(404 when absent, modelled as the error string), apply the field
updates, write the record back, and on a terminal status run the
cleanup pipeline. -/
def updateTaskStatus (st : Store) (task_id : String) (status : TaskStatus)
    (stage : Option TaskStage) (progress : Option ℤ)
    (result : Option String) (error_message : Option String) (now : ℕ) :
    Except String Store :=
  match aget st.tasks task_id with
  | none => .error ("Task not found")
  | some task_data =>
    let td := applyUpdate task_data status stage progress result
      error_message now
    let st1 : Store := { st with tasks := aset st.tasks task_id td }
    if status.isTerminal then
      .ok (cleanupCompletedTask st1 task_id td.user_id)
    else
      .ok st1

/-- Model of `TaskManagerService.cancel_task`: false when the record is
absent, foreign or already terminal; otherwise mark CANCELLED and return
true. -/
def cancelTask (st : Store) (task_id user_id : String) (now : ℕ) :
    Except String (Store × Bool) :=
  match getTaskStatus st task_id with
  | none => .ok (st, false)
  | some task_data =>
    if task_data.user_id ≠ user_id then .ok (st, false)
    else if task_data.status = .pending ∨ task_data.status = .processing then
      match updateTaskStatus st task_id .cancelled none none none none now with
      | .ok st1 => .ok (st1, true)
      | .error e => .error e
    else .ok (st, false)

/-- Outer exception handler of
`BackgroundProcessor.generate_paragraphs_with_visuals_task`: record the
failure as a terminal FAILED update carrying the exception message, then
re-raise; when that update itself raises, its exception propagates
instead. -/
def handleTaskFailure (st : Store) (task_id msg : String) (now : ℕ) :
    Store × Except String Unit :=
  match updateTaskStatus st task_id .failed none (some 0) none (some msg)
      now with
  | .ok st1 => (st1, .error msg)
  | .error e => (st, .error e)

/-- Model of
`BackgroundProcessor.generate_paragraphs_with_visuals_task`: the three
progress updates (10, 30, 70), the pipeline call — abstracted as its
outcome `pipelineResult`, covering the collaborator calls and temp-file
handling of the try block — and the final COMPLETED update at progress
100 carrying the result; every exception of the try block reaches the
outer handler. All timestamps of one run are modelled by one `now`. -/
def runGenerateParagraphsWithVisualsTask (st : Store) (task_id : String)
    (pipelineResult : Except String String) (now : ℕ) :
    Store × Except String Unit :=
  match updateTaskStatus st task_id .processing (some .transcribing)
      (some 10) none none now with
  | .error e => handleTaskFailure st task_id e now
  | .ok s1 =>
    match updateTaskStatus s1 task_id .processing (some .processing_llm)
        (some 30) none none now with
    | .error e => handleTaskFailure s1 task_id e now
    | .ok s2 =>
      match updateTaskStatus s2 task_id .processing (some .aligning)
          (some 70) none none now with
      | .error e => handleTaskFailure s2 task_id e now
      | .ok s3 =>
        match pipelineResult with
        | .error e => handleTaskFailure s3 task_id e now
        | .ok result_dict =>
          match updateTaskStatus s3 task_id .completed (some .completed)
              (some 100) (some result_dict) none now with
          | .error e => handleTaskFailure s3 task_id e now
          | .ok s4 => (s4, .ok ())

/-- Word-slice entry builder for the concrete scenarios. -/
def mkWord (t : String) (s e : ℚ) : WordTranscription :=
  ⟨pystr ("w"), pystr t, s, e, pystr ("seg")⟩

/-- Word slice of the spec scenario for the paragraph
"The sky is blue today.". -/
def skyWordSlice : List WordTranscription :=
  [mkWord ("the") 0 0.2, mkWord ("sky") 0.2 0.4, mkWord ("is") 0.4 0.6,
   mkWord ("blue") 0.6 0.9, mkWord ("today") 0.9 1.2]

/-- Visual whose start sentence is "is blue". -/
def skyVisual : LLMGeneratedVisualItem :=
  ⟨pystr ("image"), pystr ("content"), pystr ("is blue"), none⟩

/-- Three-word slice used to exercise the loop bound. -/
def threeWordSlice : List WordTranscription :=
  [mkWord ("alpha") 0 1, mkWord ("beta") 1 2, mkWord ("gamma") 2 3]

/-- Visual whose start sentence has four tokens, of which the two-token
key occurs at position 1 of `threeWordSlice`. -/
def fourTokenVisual : LLMGeneratedVisualItem :=
  ⟨pystr ("image"), pystr ("content"), pystr ("beta gamma delta epsilon"),
   none⟩

/-- Visual whose start-sentence tokens occur nowhere in
`skyWordSlice`. -/
def strayVisual : LLMGeneratedVisualItem :=
  ⟨pystr ("image"), pystr ("content"), pystr ("zebra quark"), none⟩

/-- Placeholder scored match for concrete aligned paragraphs. -/
def placeholderMatch : ScoredMatch :=
  ⟨pystr ("m"), pystr (""), 0, 0, 0⟩

/-- Concrete paragraph carrying `strayVisual`. -/
def strayParagraph : LLMParagraphWithVisual :=
  ⟨0, pystr ("p"), some [], some strayVisual⟩

/-- Concrete aligned paragraph carrying `skyWordSlice`. -/
def skyAligned : AlignedParagraph :=
  ⟨pystr ("p"), 0, placeholderMatch, placeholderMatch, skyWordSlice, 0, 2⟩

/-- Concrete aligned paragraph with a given index and no words. -/
def bareAligned (ix : ℤ) : AlignedParagraph :=
  ⟨pystr ("p"), ix, placeholderMatch, placeholderMatch, [], 0, 1⟩

/-- Concrete generated paragraph with a given index and no visual. -/
def bareGenerated (ix : ℤ) : LLMParagraphWithVisual :=
  ⟨ix, pystr ("p"), some [], none⟩

/-- Three generated paragraphs, indices 0, 1, 2. -/
def threeGenerated : LLMParagraphList :=
  ⟨[bareGenerated 0, bareGenerated 1, bareGenerated 2]⟩

/-- Two aligned paragraphs, indices 0, 1. -/
def twoAligned : MediaAlignmentResult :=
  ⟨[bareAligned 0, bareAligned 1]⟩

/-- Concrete video metadata carried by the example records. -/
def sampleMetadata : VideoMetadata :=
  ⟨"course1", "chapter1", "video1", .generate⟩

/-- A task record already COMPLETED, with the store exactly as the
service leaves it after the terminal update's cleanup. -/
def completedRecord : TaskData :=
  ⟨"u:t1", "u", .completed, .completed, 100, 0, 1, some ("r"), none,
   sampleMetadata⟩

/-- Store holding only `completedRecord`. -/
def terminalStore : Store :=
  ⟨[("u:t1", completedRecord)], [("u", [])], [("u", ["u:t1"])], 0⟩

/-- A PENDING record as a well-formed store could hold it. -/
def pendingRecord : TaskData :=
  ⟨"u:t2", "u", .pending, .queued, 0, 0, 0, none, none, sampleMetadata⟩

/-- Store holding only `pendingRecord`, still active. -/
def pendingStore : Store :=
  ⟨[("u:t2", pendingRecord)], [("u", ["u:t2"])], [], 1⟩

/-- Store produced by updating the already-COMPLETED record of
`terminalStore` back to PROCESSING. -/
def c2After : Store :=
  { terminalStore with
    tasks := aset terminalStore.tasks ("u:t1")
      (applyUpdate completedRecord .processing none none none none 5) }

end CourseAgents

namespace CourseAgents

theorem scanFrom_eq_none_iff (f : ℕ → Option α) :
    ∀ (count start : ℕ),
      scanFrom f start count = none ↔
        ∀ i, start ≤ i → i < start + count → f i = none := by
  intro count
  induction count with
  | zero =>
    intro start
    simp only [scanFrom]
    constructor
    · intro _ i h1 h2
      omega
    · intro _
      trivial
  | succ c ih =>
    intro start
    simp only [scanFrom]
    cases hf : f start with
    | some r =>
      simp only []
      constructor
      · intro h
        exact absurd h (by simp)
      · intro h
        have := h start (le_refl start) (by omega)
        rw [hf] at this
        exact absurd this (by simp)
    | none =>
      simp only []
      rw [ih (start + 1)]
      constructor
      · intro h i h1 h2
        rcases Nat.eq_or_lt_of_le h1 with rfl | hlt
        · exact hf
        · exact h i hlt (by omega)
      · intro h i h1 h2
        exact h i (by omega) (by omega)

theorem scanFrom_eq_some_iff (f : ℕ → Option α) (r : α) :
    ∀ (count start : ℕ),
      scanFrom f start count = some r ↔
        ∃ i, start ≤ i ∧ i < start + count ∧ f i = some r ∧
          ∀ j, start ≤ j → j < i → f j = none := by
  intro count
  induction count with
  | zero =>
    intro start
    simp only [scanFrom]
    constructor
    · intro h
      exact absurd h (by simp)
    · rintro ⟨i, h1, h2, -⟩
      omega
  | succ c ih =>
    intro start
    simp only [scanFrom]
    cases hf : f start with
    | some r2 =>
      simp only [Option.some_inj]
      constructor
      · rintro rfl
        exact ⟨start, le_refl start, by omega, hf, fun j hj1 hj2 => by omega⟩
      · rintro ⟨i, h1, h2, h3, h4⟩
        rcases Nat.eq_or_lt_of_le h1 with rfl | hlt
        · rw [hf] at h3
          exact Option.some_inj.mp h3
        · have := h4 start (le_refl start) hlt
          rw [hf] at this
          exact absurd this (by simp)
    | none =>
      simp only []
      rw [ih (start + 1)]
      constructor
      · rintro ⟨i, h1, h2, h3, h4⟩
        refine ⟨i, by omega, by omega, h3, ?_⟩
        intro j hj1 hj2
        rcases Nat.eq_or_lt_of_le hj1 with rfl | hlt
        · exact hf
        · exact h4 j hlt hj2
      · rintro ⟨i, h1, h2, h3, h4⟩
        have hine : start ≠ i := by
          rintro rfl
          rw [hf] at h3
          exact absurd h3 (by simp)
        refine ⟨i, by omega, by omega, h3, ?_⟩
        intro j hj1 hj2
        exact h4 j (by omega) hj2

theorem splitOnSpace_ne_nil (s : PyStr) : splitOnSpace s ≠ [] := by
  cases s with
  | nil => simp [splitOnSpace]
  | cons c rest =>
    simp only [splitOnSpace]
    by_cases hc : c = ' '
    · simp [hc]
    · rw [if_neg hc]
      cases h : splitOnSpace rest <;> simp

theorem prepareVisualStartWords_length_pos (s : PyStr) :
    0 < (prepareVisualStartWords s).length := by
  unfold prepareVisualStartWords
  rw [List.length_map]
  cases h : splitOnSpace (cleanText s) with
  | nil => exact absurd h (splitOnSpace_ne_nil _)
  | cons a l => simp

theorem anchorLoopBound_le (n k : ℕ) (h : 1 ≤ k) :
    anchorLoopBound n k ≤ n := by
  unfold anchorLoopBound
  omega

theorem buildMappedVisual_startTime (v : LLMGeneratedVisualItem) (s : ℚ)
    (b : Bool) : (buildMappedVisual v s b).startTime = s := by
  unfold buildMappedVisual MappedVisual.startTime
  rcases b with _ | _ <;> rcases v.assist_image_id with _ | aid <;> simp
  by_cases h : aid = [] <;> simp [h]

/-- C1. Counterexample to the claim that the anchoring function slides a
window of the two-token key's length across the whole word slice and
anchors at the first position where the window matches: on the
three-word slice alpha/beta/gamma with start sentence
"beta gamma delta epsilon", the two-token key (beta, gamma) matches at
position 1 and a two-token window fits there, yet the code anchors
nothing, because its loop bound subtracts the full four-token count of
the normalized start sentence; the spec-worded anchoring
(`specAnchorStartTime`) anchors at the `start` of position 1. -/
theorem c1_two_token_window_claim_counterexample :
    mapVisualToWordTimestamps fourTokenVisual threeWordSlice false = none ∧
    wordsMatchAtPosition
      (prepareVisualStartWords fourTokenVisual.start_sentence)
      threeWordSlice 1 = true ∧
    1 + 2 ≤ threeWordSlice.length ∧
    specAnchorStartTime fourTokenVisual.start_sentence threeWordSlice =
      some 1 :=
  ⟨rfl, by decide, by decide, rfl⟩

/-- C1 (amended). The anchoring function normalizes both sides, matches
on only the first two tokens of the normalized start sentence, but
slides the window only across the first
`len(words) - len(full normalized token list) + 1` positions; within
that bound, it anchors at the first matching position and returns that
word's `start` as the visual's start time, and it produces no anchor
exactly when no position within that bound matches. -/
theorem c1_anchor_first_match_within_full_token_bound
    (visual : LLMGeneratedVisualItem) (words : List WordTranscription)
    (isSA : Bool) :
    (mapVisualToWordTimestamps visual words isSA = none ↔
      ∀ i, i < anchorLoopBound words.length
          (prepareVisualStartWords visual.start_sentence).length →
        wordsMatchAtPosition (prepareVisualStartWords visual.start_sentence)
          words i = false) ∧
    (∀ mv, mapVisualToWordTimestamps visual words isSA = some mv ↔
      ∃ i, i < anchorLoopBound words.length
          (prepareVisualStartWords visual.start_sentence).length ∧
        wordsMatchAtPosition (prepareVisualStartWords visual.start_sentence)
          words i = true ∧
        (∀ j, j < i →
          wordsMatchAtPosition
            (prepareVisualStartWords visual.start_sentence) words j =
            false) ∧
        ∃ wt, words.get? i = some wt ∧
          mv = buildMappedVisual visual wt.start isSA ∧
          mv.startTime = wt.start) := by
  have hb : anchorLoopBound words.length
      (prepareVisualStartWords visual.start_sentence).length ≤
        words.length :=
    anchorLoopBound_le _ _ (prepareVisualStartWords_length_pos _)
  constructor
  · rw [mapVisualToWordTimestamps, scanFrom_eq_none_iff]
    constructor
    · intro h i hib
      have hf := h i (Nat.zero_le i) (by omega)
      unfold anchorLoopBody at hf
      by_cases hm : wordsMatchAtPosition
          (prepareVisualStartWords visual.start_sentence) words i = true
      · rw [if_pos hm] at hf
        have hlt : i < words.length := lt_of_lt_of_le hib hb
        rw [List.get?_eq_get hlt] at hf
        simp at hf
      · simpa using hm
    · intro h i h0 hib
      unfold anchorLoopBody
      rw [h i (by omega)]
      exact if_neg (by simp)
  · intro mv
    rw [mapVisualToWordTimestamps, scanFrom_eq_some_iff]
    constructor
    · rintro ⟨i, h0, hib, hf, hprev⟩
      unfold anchorLoopBody at hf
      by_cases hm : wordsMatchAtPosition
          (prepareVisualStartWords visual.start_sentence) words i = true
      · rw [if_pos hm] at hf
        have hlt : i < words.length := lt_of_lt_of_le (by omega) hb
        rw [List.get?_eq_get hlt] at hf
        simp only [Option.map_some', Option.some_inj] at hf
        refine ⟨i, by omega, hm, ?_, words.get ⟨i, hlt⟩,
          List.get?_eq_get hlt, hf.symm, ?_⟩
        · intro j hj
          have hfj := hprev j (Nat.zero_le j) hj
          unfold anchorLoopBody at hfj
          by_cases hmj : wordsMatchAtPosition
              (prepareVisualStartWords visual.start_sentence) words j = true
          · rw [if_pos hmj] at hfj
            have hltj : j < words.length := by omega
            rw [List.get?_eq_get hltj] at hfj
            simp at hfj
          · simpa using hmj
        · rw [← hf, buildMappedVisual_startTime]
      · rw [if_neg hm] at hf
        exact absurd hf (by simp)
    · rintro ⟨i, hib, hm, hprev, wt, hwt, hmv, hst⟩
      refine ⟨i, Nat.zero_le i, by omega, ?_, ?_⟩
      · unfold anchorLoopBody
        rw [if_pos hm, hwt]
        simp [hmv]
      · intro j hj0 hji
        unfold anchorLoopBody
        rw [hprev j hji]
        exact if_neg (by simp)

/-- C8. The anchoring half of the claim holds: for every word slice
(the empty slice included) and every visual whose two-token key matches
at no position of the slice, the anchoring function returns no anchored
visual and raises nothing. The paragraph half fails in this source:
`_create_processed_paragraph` constructs each `WordTimestamp` without
the required `word_type` field, so for every non-empty word slice the
construction raises a `ValidationError` and the enclosing paragraph is
not produced; only a paragraph with an empty word slice is produced
(with no visual content). -/
theorem c8_no_anchor_no_error_but_word_timestamp_construction_raises
    (paragraph : LLMParagraphWithVisual) (aligned : AlignedParagraph)
    (isSA : Bool) (visual : LLMGeneratedVisualItem)
    (hv : paragraph.visuals = some visual)
    (hno : ∀ i, i < aligned.word_details.length →
      wordsMatchAtPosition (prepareVisualStartWords visual.start_sentence)
        aligned.word_details i = false) :
    mapVisualToWordTimestamps visual aligned.word_details isSA = none ∧
    processParagraphVisuals paragraph aligned isSA = none ∧
    (aligned.word_details = [] →
      ∃ pp, createProcessedParagraph paragraph aligned
          (processParagraphVisuals paragraph aligned isSA) = .ok pp ∧
        pp.visual_content = none) ∧
    (aligned.word_details ≠ [] →
      createProcessedParagraph paragraph aligned
        (processParagraphVisuals paragraph aligned isSA) =
        .error (pystr ("ValidationError: word_type field required"))) := by
  have h1 : mapVisualToWordTimestamps visual aligned.word_details isSA =
      none := by
    rw [mapVisualToWordTimestamps, scanFrom_eq_none_iff]
    intro i h0 hib
    have hb : anchorLoopBound aligned.word_details.length
        (prepareVisualStartWords visual.start_sentence).length ≤
          aligned.word_details.length :=
      anchorLoopBound_le _ _ (prepareVisualStartWords_length_pos _)
    unfold anchorLoopBody
    rw [hno i (by omega)]
    exact if_neg (by simp)
  have h2 : processParagraphVisuals paragraph aligned isSA = none := by
    unfold processParagraphVisuals
    rw [hv]
    exact h1
  refine ⟨h1, h2, ?_, ?_⟩
  · intro he
    unfold createProcessedParagraph AlignedParagraph.paragraph_words
    rw [he]
    exact ⟨_, rfl, h2⟩
  · intro hne
    unfold createProcessedParagraph AlignedParagraph.paragraph_words
    cases hwd : aligned.word_details with
    | nil => exact absurd hwd hne
    | cons w ws => simp [buildWordTimestampList, buildWordTimestamp]

/-- Witness for C8: the visual with start sentence "zebra quark"
against the non-empty sky word slice — no anchor, no error from the
anchoring, and the paragraph construction raises. -/
theorem c8_no_anchor_no_error_construction_raises_witness :
    (strayParagraph.visuals = some strayVisual ∧
      (∀ i, i < skyAligned.word_details.length →
        wordsMatchAtPosition
          (prepareVisualStartWords strayVisual.start_sentence)
          skyAligned.word_details i = false) ∧
      skyAligned.word_details ≠ []) ∧
    (mapVisualToWordTimestamps strayVisual skyAligned.word_details false =
        none ∧
      processParagraphVisuals strayParagraph skyAligned false = none ∧
      createProcessedParagraph strayParagraph skyAligned
        (processParagraphVisuals strayParagraph skyAligned false) =
        .error (pystr ("ValidationError: word_type field required"))) := by
  have h := c8_no_anchor_no_error_but_word_timestamp_construction_raises
    strayParagraph skyAligned false strayVisual (by decide) (by decide)
  exact ⟨⟨by decide, by decide, by decide⟩,
    h.1, h.2.1, h.2.2.2 (by decide)⟩

/-- C9. Scenario of the spec: the sky word slice with start sentence
"is blue" anchors the visual at start time 0.4, the `start` of the word
"is". -/
theorem c9_sky_scenario_start_time :
    (mapVisualToWordTimestamps skyVisual skyWordSlice false).map
      MappedVisual.startTime = some 0.4 := by rfl

/-- C4. When the aligned and generated paragraph sequences differ in
length, the merge raises its hard length-mismatch error before merging
any pair, and no processed-paragraph list (partial or otherwise) is
produced. -/
theorem c4_merge_length_mismatch_aborts (m : MediaAlignmentResult)
    (g : LLMParagraphList) (isSA : Bool)
    (h : m.result.length ≠ g.paragraphs.length) :
    mergeVideoAlignmentWithGeneratedParagraphs m g isSA =
      .error (pystr
        ("Generated paragraphs and aligned paragraphs must be matched in length.")) ∧
    ∀ out, mergeVideoAlignmentWithGeneratedParagraphs m g isSA ≠ .ok out := by
  have h1 : mergeVideoAlignmentWithGeneratedParagraphs m g isSA =
      .error (pystr
        ("Generated paragraphs and aligned paragraphs must be matched in length.")) := by
    unfold mergeVideoAlignmentWithGeneratedParagraphs
    rw [if_pos h]
  exact ⟨h1, fun out hok => by rw [h1] at hok; exact absurd hok (by simp)⟩

/-- Witness for C4: three generated paragraphs against two aligned
paragraphs. -/
theorem c4_merge_length_mismatch_aborts_witness :
    twoAligned.result.length ≠ threeGenerated.paragraphs.length ∧
    mergeVideoAlignmentWithGeneratedParagraphs twoAligned threeGenerated
        false =
      .error (pystr
        ("Generated paragraphs and aligned paragraphs must be matched in length.")) :=
  ⟨by decide,
   (c4_merge_length_mismatch_aborts twoAligned threeGenerated false
     (by decide)).1⟩

theorem aget_aset (m : List (String × α)) (k : String) (v : α)
    (key : String) :
    aget (aset m k v) key = if k = key then some v else aget m key := by
  induction m with
  | nil => by_cases h : k = key <;> simp [aset, aget, h]
  | cons p rest ih =>
    obtain ⟨k2, v2⟩ := p
    by_cases h2 : k2 = k <;> by_cases h3 : k2 = key <;>
      by_cases h4 : k = key <;> simp_all [aset, aget]

theorem aget_aset_self (m : List (String × α)) (k : String) (v : α) :
    aget (aset m k v) k = some v := by
  rw [aget_aset]
  exact if_pos rfl

theorem updateTaskStatus_found (st : Store) (task_id : String)
    (status : TaskStatus) (stg : Option TaskStage) (prg : Option ℤ)
    (res err : Option String) (now : ℕ) (td : TaskData)
    (h : aget st.tasks task_id = some td) :
    ∃ st2, updateTaskStatus st task_id status stg prg res err now = .ok st2 ∧
      st2.tasks = aset st.tasks task_id
        (applyUpdate td status stg prg res err now) := by
  unfold updateTaskStatus
  rw [h]
  cases hts : status.isTerminal <;> simp [hts]
  rfl

/-- C2. Counterexample to terminal-status finality: `terminalStore`
holds a COMPLETED record, and a subsequent `update_task_status` call
with PROCESSING succeeds and changes the stored status to PROCESSING. -/
theorem c2_terminal_status_overwritten_counterexample :
    (aget terminalStore.tasks ("u:t1")).map TaskData.status =
      some TaskStatus.completed ∧
    ((updateTaskStatus terminalStore ("u:t1") TaskStatus.processing none
        none none none 5).toOption.bind
      (fun st2 => aget st2.tasks ("u:t1"))).map TaskData.status =
      some TaskStatus.processing := by
  constructor
  · decide
  · rfl

/-- C2 (amended). `update_task_status` guards no terminal state: after
any successful update the stored status equals the status argument of
that call, whatever the previous status was — so a terminal status is
kept only while no further update call is made (last write wins). -/
theorem c2_status_equals_last_update_argument (st : Store)
    (task_id : String) (status : TaskStatus) (stg : Option TaskStage)
    (prg : Option ℤ) (res err : Option String) (now : ℕ) (st2 : Store)
    (h : updateTaskStatus st task_id status stg prg res err now = .ok st2) :
    (aget st2.tasks task_id).map TaskData.status = some status := by
  cases haget : aget st.tasks task_id with
  | none =>
    unfold updateTaskStatus at h
    rw [haget] at h
    exact absurd h (by simp)
  | some td =>
    obtain ⟨st3, hok, htasks⟩ :=
      updateTaskStatus_found st task_id status stg prg res err now td haget
    rw [hok] at h
    obtain rfl : st3 = st2 := by simpa using h
    rw [htasks, aget_aset_self]
    rfl

/-- Witness for C2 (amended): the COMPLETED record of `terminalStore`
updated to PROCESSING carries status PROCESSING. -/
theorem c2_status_equals_last_update_argument_witness :
    updateTaskStatus terminalStore ("u:t1") .processing none none none
      none 5 = .ok c2After ∧
    (aget c2After.tasks ("u:t1")).map TaskData.status =
      some TaskStatus.processing :=
  ⟨by rfl,
   c2_status_equals_last_update_argument terminalStore ("u:t1") .processing
     none none none none 5 c2After (by rfl)⟩

/-- C10. `update_task_status` never touches `task_id`, `user_id` or
`created_at`; it keeps `stage`, `progress`, `result` and
`error_message` whenever the corresponding argument is omitted; and it
overwrites exactly `status` and `updated_at` unconditionally. -/
theorem c10_update_preserves_frame_fields (st : Store) (task_id : String)
    (status : TaskStatus) (stg : Option TaskStage) (prg : Option ℤ)
    (res err : Option String) (now : ℕ) (td : TaskData)
    (h : aget st.tasks task_id = some td) :
    ∃ st2 td2,
      updateTaskStatus st task_id status stg prg res err now = .ok st2 ∧
      aget st2.tasks task_id = some td2 ∧
      td2.task_id = td.task_id ∧
      td2.user_id = td.user_id ∧
      td2.created_at = td.created_at ∧
      (stg = none → td2.stage = td.stage) ∧
      (prg = none → td2.progress = td.progress) ∧
      (res = none → td2.result = td.result) ∧
      (err = none → td2.error_message = td.error_message) ∧
      td2.status = status ∧
      td2.updated_at = now := by
  obtain ⟨st2, hok, htasks⟩ :=
    updateTaskStatus_found st task_id status stg prg res err now td h
  refine ⟨st2, applyUpdate td status stg prg res err now, hok, ?_, ?_, ?_,
    ?_, ?_, ?_, ?_, ?_, ?_, ?_⟩
  · rw [htasks]
    exact aget_aset_self _ _ _
  · rfl
  · rfl
  · rfl
  · rintro rfl
    rfl
  · rintro rfl
    rfl
  · rintro rfl
    rfl
  · rintro rfl
    rfl
  · rfl
  · rfl

/-- Witness for C10: a progress update on the PENDING record of
`pendingStore`. -/
theorem c10_update_preserves_frame_fields_witness :
    aget pendingStore.tasks ("u:t2") = some pendingRecord ∧
    ∃ st2 td2,
      updateTaskStatus pendingStore ("u:t2") .processing
          (some .transcribing) (some 10) none none 7 = .ok st2 ∧
      aget st2.tasks ("u:t2") = some td2 ∧
      td2.task_id = pendingRecord.task_id ∧
      td2.user_id = pendingRecord.user_id ∧
      td2.created_at = pendingRecord.created_at ∧
      ((some TaskStage.transcribing : Option TaskStage) = none →
        td2.stage = pendingRecord.stage) ∧
      ((some (10 : ℤ) : Option ℤ) = none →
        td2.progress = pendingRecord.progress) ∧
      ((none : Option String) = none → td2.result = pendingRecord.result) ∧
      ((none : Option String) = none →
        td2.error_message = pendingRecord.error_message) ∧
      td2.status = .processing ∧
      td2.updated_at = 7 :=
  ⟨by decide,
   c10_update_preserves_frame_fields pendingStore ("u:t2") .processing
     (some .transcribing) (some 10) none none 7 pendingRecord (by decide)⟩

/-- C6. `cancel_task` never raises: it returns true exactly when the
record exists, belongs to the caller and is PENDING or PROCESSING at
the time of the call, and returns false (leaving the store unchanged)
in every other case. -/
theorem c6_cancel_returns_true_iff_owned_active (st : Store)
    (task_id user_id : String) (now : ℕ) :
    ∃ st2 b, cancelTask st task_id user_id now = .ok (st2, b) ∧
      (b = true ↔ ∃ td, getTaskStatus st task_id = some td ∧
        td.user_id = user_id ∧
        (td.status = .pending ∨ td.status = .processing)) ∧
      (b = false → st2 = st) := by
  unfold cancelTask
  cases h : getTaskStatus st task_id with
  | none =>
    refine ⟨st, false, rfl, ?_, fun _ => rfl⟩
    simp
  | some td =>
    dsimp only
    by_cases hu : td.user_id ≠ user_id
    · rw [if_pos hu]
      refine ⟨st, false, rfl, ?_, fun _ => rfl⟩
      constructor
      · intro hb
        exact absurd hb (by simp)
      · rintro ⟨td2, htd2, hu2, -⟩
        obtain rfl := Option.some_inj.mp htd2
        exact absurd hu2 hu
    · rw [if_neg hu]
      by_cases hs : td.status = .pending ∨ td.status = .processing
      · rw [if_pos hs]
        obtain ⟨st2, hok, -⟩ :=
          updateTaskStatus_found st task_id .cancelled none none none none
            now td h
        rw [hok]
        refine ⟨st2, true, rfl, ?_, fun hb => absurd hb (by simp)⟩
        simp only [true_iff]
        exact ⟨td, rfl, not_not.mp hu, hs⟩
      · rw [if_neg hs]
        refine ⟨st, false, rfl, ?_, fun _ => rfl⟩
        constructor
        · intro hb
          exact absurd hb (by simp)
        · rintro ⟨td2, htd2, hu2, hs2⟩
          obtain rfl := Option.some_inj.mp htd2
          exact absurd hs2 hs

/-- C7. When the pipeline body of the background task raises, the outer
handler records the failure: the record ends FAILED with the
exception's message as `error_message` (in particular it is not left
PROCESSING), and the exception is re-raised. -/
theorem c7_pipeline_failure_recorded_as_failed_and_reraised (st : Store)
    (task_id msg : String) (now : ℕ)
    (h : (aget st.tasks task_id).isSome = true) :
    ∃ td,
      aget (runGenerateParagraphsWithVisualsTask st task_id
        (.error msg) now).1.tasks task_id = some td ∧
      td.status = .failed ∧
      td.error_message = some msg ∧
      (runGenerateParagraphsWithVisualsTask st task_id
        (.error msg) now).2 = .error msg := by
  obtain ⟨td0, h0⟩ := Option.isSome_iff_exists.mp h
  obtain ⟨s1, hok1, ht1⟩ := updateTaskStatus_found st task_id .processing
    (some .transcribing) (some 10) none none now td0 h0
  have h1 : aget s1.tasks task_id =
      some (applyUpdate td0 .processing (some .transcribing) (some 10)
        none none now) := by
    rw [ht1]
    exact aget_aset_self _ _ _
  obtain ⟨s2, hok2, ht2⟩ := updateTaskStatus_found s1 task_id .processing
    (some .processing_llm) (some 30) none none now _ h1
  have h2 : aget s2.tasks task_id =
      some (applyUpdate (applyUpdate td0 .processing (some .transcribing)
        (some 10) none none now) .processing (some .processing_llm)
        (some 30) none none now) := by
    rw [ht2]
    exact aget_aset_self _ _ _
  obtain ⟨s3, hok3, ht3⟩ := updateTaskStatus_found s2 task_id .processing
    (some .aligning) (some 70) none none now _ h2
  have h3 : aget s3.tasks task_id = some (applyUpdate (applyUpdate
      (applyUpdate td0 .processing (some .transcribing) (some 10) none none
        now) .processing (some .processing_llm) (some 30) none none now)
      .processing (some .aligning) (some 70) none none now) := by
    rw [ht3]
    exact aget_aset_self _ _ _
  obtain ⟨s4, hok4, ht4⟩ := updateTaskStatus_found s3 task_id .failed
    none (some 0) none (some msg) now _ h3
  have hrun : runGenerateParagraphsWithVisualsTask st task_id
      (.error msg) now = (s4, .error msg) := by
    simp only [runGenerateParagraphsWithVisualsTask, hok1, hok2, hok3,
      handleTaskFailure, hok4]
  rw [hrun]
  have h4 : aget s4.tasks task_id = some (applyUpdate (applyUpdate
      (applyUpdate (applyUpdate td0 .processing (some .transcribing)
        (some 10) none none now) .processing (some .processing_llm)
        (some 30) none none now) .processing (some .aligning) (some 70)
        none none now) .failed none (some 0) none (some msg) now) := by
    rw [ht4]
    exact aget_aset_self _ _ _
  exact ⟨_, h4, rfl, rfl, rfl⟩

/-- Witness for C7: a failing pipeline over the PENDING record of
`pendingStore`. -/
theorem c7_pipeline_failure_recorded_witness :
    (aget pendingStore.tasks ("u:t2")).isSome = true ∧
    ∃ td,
      aget (runGenerateParagraphsWithVisualsTask pendingStore ("u:t2")
        (.error ("boom")) 9).1.tasks ("u:t2") = some td ∧
      td.status = .failed ∧
      td.error_message = some ("boom") ∧
      (runGenerateParagraphsWithVisualsTask pendingStore ("u:t2")
        (.error ("boom")) 9).2 = .error ("boom") :=
  ⟨by decide,
   c7_pipeline_failure_recorded_as_failed_and_reraised pendingStore
     ("u:t2") ("boom") 9 (by decide)⟩

/-- C5. The denial conditions are as claimed — `create_task` raises the
per-user error exactly when the caller's active-task count has reached
the per-user limit and the global error exactly when that check passes
but the counter has reached the global limit — but the success half of
the claim fails in this source: every call that passes both checks
raises a `ValidationError` constructing `TaskData` without the required
`video_metadata` field, so every `create_task` call raises and none
succeeds; in the three-call scenario zero calls succeed, not two. -/
theorem c5_denial_conditions_hold_but_no_create_succeeds :
    (∀ (maxU maxG : ℕ) (st : Store) (uid tid : String) (now : ℕ),
      createTask maxU maxG st uid tid now = .error .perUser ↔
        maxU ≤ (getUserActiveTasks st uid).length) ∧
    (∀ (maxU maxG : ℕ) (st : Store) (uid tid : String) (now : ℕ),
      createTask maxU maxG st uid tid now = .error .globalLimit ↔
        ((getUserActiveTasks st uid).length < maxU ∧
          (maxG : ℤ) ≤ st.globalCount)) ∧
    (∀ (maxU maxG : ℕ) (st : Store) (uid tid : String) (now : ℕ),
      createTask maxU maxG st uid tid now = .error .perUser ∨
      createTask maxU maxG st uid tid now = .error .globalLimit ∨
      createTask maxU maxG st uid tid now = .error .validationError) ∧
    createTask 2 20 emptyStore ("u") ("u:a") 0 = .error .validationError := by
  refine ⟨?_, ?_, ?_, rfl⟩
  · intro maxU maxG st uid tid now
    unfold createTask createCheck
    by_cases h1 : maxU ≤ (getUserActiveTasks st uid).length
    · rw [if_pos h1]
      simp [h1]
    · rw [if_neg h1]
      by_cases h2 : (maxG : ℤ) ≤ st.globalCount
      · rw [if_pos h2]
        simp [h1]
      · rw [if_neg h2]
        simp [h1, buildTaskData]
  · intro maxU maxG st uid tid now
    unfold createTask createCheck
    by_cases h1 : maxU ≤ (getUserActiveTasks st uid).length
    · rw [if_pos h1]
      simp [h1]
    · rw [if_neg h1]
      by_cases h2 : (maxG : ℤ) ≤ st.globalCount
      · rw [if_pos h2]
        simp [h2]
        omega
      · rw [if_neg h2]
        simp [h2, buildTaskData]
  · intro maxU maxG st uid tid now
    unfold createTask createCheck
    by_cases h1 : maxU ≤ (getUserActiveTasks st uid).length
    · rw [if_pos h1]
      simp
    · rw [if_neg h1]
      by_cases h2 : (maxG : ℤ) ≤ st.globalCount
      · rw [if_pos h2]
        simp
      · rw [if_neg h2]
        simp [buildTaskData]

/-- C3. The claimed atomic admission never happens in this source: on
an empty store the quota checks pass, yet the call raises a
`ValidationError` constructing `TaskData` without the required
`video_metadata` field, before the write pipeline — and in general a
`create_task` call raises the validation error exactly when its quota
checks pass, so no call (concurrent or not) ever admits, indexes or
counts a task. -/
theorem c3_checks_pass_but_task_construction_fails_before_pipeline :
    createCheck 1 20 emptyStore ("u") = none ∧
    createTask 1 20 emptyStore ("u") ("u:a") 0 = .error .validationError ∧
    (∀ (maxU maxG : ℕ) (st : Store) (uid tid : String) (now : ℕ),
      createTask maxU maxG st uid tid now = .error .validationError ↔
        createCheck maxU maxG st uid = none) := by
  refine ⟨by decide, rfl, ?_⟩
  intro maxU maxG st uid tid now
  unfold createTask
  cases hc : createCheck maxU maxG st uid with
  | none => simp [buildTaskData]
  | some e => cases e <;> simp

end CourseAgents
